import Mathlib

/-!
Verification of the Handoff status engine, `src/frontend/src/utils/status.ts`,
against its natural-language specification.

Modelling conventions (shallow embedding of the TypeScript source):
* A TypeScript optional field `f?: T` is `Option T`; `none` stands for the JS
  values `undefined`/`null`.
* JS `x != null` (loose inequality) on an optional field holds exactly when the
  field is present, i.e. `Option.isSome`; note `"" != null` is true in JS.
* JS truthiness of an optional string (`if (x) ...`) is false for `undefined`,
  `null` and the empty string, and true otherwise; truthiness of an optional
  array is false only for `undefined`/`null` (an empty array is truthy).
* Money fields are JS numbers holding whole rupees (the spec and the backend
  schema declare them integers), embedded as `Int`.
* Dates are embedded at day granularity: `new Date(s)` on a date-only ISO
  string `YYYY-MM-DD` — the deadline domain of the embedding, being the shape
  the deadline date picker emits and the backend's date pattern admits — is
  modelled by `parseDate`, which yields an order-preserving day index exactly
  for real calendar dates (month 1..12, day within the month's Gregorian
  length, leap years included), `none` standing for JS Invalid Date; the
  ambient clock read `new Date()` followed by `setHours(0, 0, 0, 0)` is
  passed explicitly as `today`, the day index of the current date at local
  midnight (the runtime timezone is assumed to agree with the UTC reading of
  date-only deadlines). A comparison against an Invalid Date is false in JS.
-/

namespace Handoff

/-- Enum of the `type` field: `'software' | 'hardware' | 'mixed'`. -/
inductive ProjectType where
  | software
  | hardware
  | mixed
deriving DecidableEq, Repr

/-- JS truthiness of an optional string field: `undefined`, `null` and `""`
are falsy, every other string is truthy. -/
def truthyStr : Option String → Bool
  | none => false
  | some s => s != ""

/-- JS truthiness of an optional array field: `undefined` and `null` are
falsy; an array is an object and hence truthy, even when empty. -/
def truthyArr : Option (List String) → Bool
  | none => false
  | some _ => true

/-- The `Project` record of `src/frontend/src/models/Project.ts`. -/
structure Project where
  id : String
  name : String
  clientName : Option String
  description : Option String
  type : ProjectType
  createdAt : String
  startDate : Option String
  deadline : String
  completedAt : Option String
  deliveredAt : Option String
  totalAmount : Int
  advanceReceived : Int
  totalReceived : Int
  partnerShareGiven : Option Int
  partnerShareDate : Option String
  harshkShareGiven : Option Int
  harshkShareDate : Option String
  nikkuShareGiven : Option Int
  nikkuShareDate : Option String
  completionVideoLink : Option String
  completionNotes : Option String
  repoLink : Option String
  liveLink : Option String
  deliveryNotes : Option String
  techStack : Option (List String)
  deliverables : Option (List String)
  internalNotes : Option String
deriving DecidableEq, Repr

/-- The `ProjectStatus` union of `status.ts`. -/
inductive ProjectStatus where
  | notStarted
  | inProgress
  | completedPaymentPending
  | readyToDeliver
  | delivered
deriving DecidableEq, Repr

/-- Function `getProjectStatus` from `status.ts`. The source tests
`project.deliveredAt != null` and `project.completedAt != null`, which hold
exactly when the optional field is present (`isSome`), including when it holds
`""`; `Math.max(0, a - b)` is `max 0 (a - b)`. -/
def getProjectStatus (project : Project) : ProjectStatus :=
  if project.deliveredAt.isSome then
    .delivered
  else
    let dueAmount := max 0 (project.totalAmount - project.totalReceived)
    if project.completedAt.isSome ∧ dueAmount = 0 then
      .readyToDeliver
    else if project.completedAt.isSome ∧ dueAmount > 0 then
      .completedPaymentPending
    else if project.totalReceived > 0 then
      .inProgress
    else
      .notStarted

/-- Function `getDueAmount` from `status.ts`: `Math.max(0, totalAmount - totalReceived)`. -/
def getDueAmount (project : Project) : Int :=
  max 0 (project.totalAmount - project.totalReceived)

/-- Function `canAccessLinks` from `status.ts`: `getDueAmount(project) === 0`. -/
def canAccessLinks (project : Project) : Bool :=
  getDueAmount project == 0

/-- Order-preserving, injective index of a calendar date: for months in 1..12
and days in 1..31, `dateIndex` respects the lexicographic (year, month, day)
order, so `dateIndex` comparisons agree with calendar-date comparisons. -/
def dateIndex (y m d : Nat) : Nat :=
  y * 512 + m * 40 + d

/-- Value of a decimal digit character, `none` for a non-digit. -/
def digitVal (c : Char) : Option Nat :=
  if c.isDigit then some (c.toNat - 48) else none

/-- Gregorian leap-year test, as used by JS `Date`. -/
def isLeapYear (y : Nat) : Bool :=
  (y % 4 == 0 && y % 100 != 0) || y % 400 == 0

/-- Number of days of month `m` of year `y` in the Gregorian calendar; JS
`new Date` rejects an ISO date-only string whose day exceeds this. -/
def daysInMonth (y m : Nat) : Nat :=
  if m = 2 then (if isLeapYear y then 29 else 28)
  else if m = 4 ∨ m = 6 ∨ m = 9 ∨ m = 11 then 30
  else 31

/-- The backend's `datePattern` shape (four digits, dash, two digits, dash,
two digits): the date-only ISO form, the exact shape the deadline date picker
(an input of type date in ProjectForm) emits. -/
def dateOnlyShaped (s : String) : Bool :=
  match s.toList with
  | [y1, y2, y3, y4, s1, m1, m2, s2, d1, d2] =>
    y1.isDigit && y2.isDigit && y3.isDigit && y4.isDigit && s1 == '-' &&
      m1.isDigit && m2.isDigit && s2 == '-' && d1.isDigit && d2.isDigit
  | _ => false

/-- Model of JS `new Date(string)` on the date-only ISO form `YYYY-MM-DD`,
the deadline domain of this embedding (it is what the date picker emits and
what the backend's `datePattern` admits): a date-only-shaped string parses to
its day index exactly when month is 1..12 and day is within that month's
Gregorian length (leap years included), matching JS, which yields Invalid
Date for out-of-range components such as "2023-02-29" or "2024-13-05".
Every other string yields `none`, standing for the JS Invalid Date (whose
every `<` comparison is false); strings outside the date-only shape, such as
RFC3339 datetimes, are outside the deadline domain of this model. -/
def parseDate (s : String) : Option Nat :=
  match s.toList with
  | [y1, y2, y3, y4, s1, m1, m2, s2, d1, d2] =>
    if s1 = '-' ∧ s2 = '-' then
      match digitVal y1, digitVal y2, digitVal y3, digitVal y4,
            digitVal m1, digitVal m2, digitVal d1, digitVal d2 with
      | some a, some b, some c, some e, some f, some g, some h, some i =>
        let y := ((a * 10 + b) * 10 + c) * 10 + e
        let m := f * 10 + g
        let d := h * 10 + i
        if 1 ≤ m ∧ m ≤ 12 ∧ 1 ≤ d ∧ d ≤ daysInMonth y m then
          some (dateIndex y m d)
        else none
      | _, _, _, _, _, _, _, _ => none
    else none
  | _ => none

/-- Function `isOverdue` from `status.ts`. The guard
`!project.deadline || project.completedAt || project.deliveredAt` is three JS
truthiness tests (`deadline` is a required string, falsy only when empty);
after it, the parsed deadline is compared with the clock truncated to local
midnight, passed here explicitly as the day index `today`. -/
def isOverdue (project : Project) (today : Nat) : Bool :=
  if project.deadline == "" || truthyStr project.completedAt || truthyStr project.deliveredAt then
    false
  else
    match parseDate project.deadline with
    | none => false
    | some d => decide (d < today)

/-- Function `isProjectFullyDetailed` from `status.ts`. -/
def isProjectFullyDetailed (project : Project) : Bool :=
  let hasMetadata := truthyStr project.clientName && truthyArr project.techStack &&
    truthyArr project.deliverables
  let hasLinks := truthyStr project.repoLink && truthyStr project.liveLink &&
    truthyStr project.completionVideoLink
  let hasShares := project.harshkShareGiven.isSome && project.nikkuShareGiven.isSome
  hasMetadata && hasLinks && hasShares

/-- Function `getMissingCompletionRequirements` from `status.ts`: pushes labels for the
falsy fields among clientName, techStack, deliverables, in source order. -/
def getMissingCompletionRequirements (project : Project) : List String :=
  (if truthyStr project.clientName then [] else ["Client name"]) ++
  (if truthyArr project.techStack then [] else ["Tech stack"]) ++
  (if truthyArr project.deliverables then [] else ["Deliverables"])

/-- Function `getMissingDeliveryRequirements` from `status.ts`: pushes labels for the
falsy fields among repoLink, liveLink, completionVideoLink, in source order. -/
def getMissingDeliveryRequirements (project : Project) : List String :=
  (if truthyStr project.repoLink then [] else ["Repository link"]) ++
  (if truthyStr project.liveLink then [] else ["Live link"]) ++
  (if truthyStr project.completionVideoLink then [] else ["Completion video"])

/-- The canonical status-derivation rule exactly as §4.1 of the specification
words it: delivered-at set is terminal; otherwise with
`due = max(0, totalAmount - totalReceived)`, completed-at set splits on
`due == 0` versus `due > 0`; otherwise `totalReceived > 0` means in progress,
else not started. A field is "set" when it is present. -/
def canonicalStatus (p : Project) : ProjectStatus :=
  if p.deliveredAt.isSome then
    .delivered
  else
    let due := max 0 (p.totalAmount - p.totalReceived)
    if p.completedAt.isSome ∧ due = 0 then
      .readyToDeliver
    else if p.completedAt.isSome ∧ due > 0 then
      .completedPaymentPending
    else if p.totalReceived > 0 then
      .inProgress
    else
      .notStarted

/-- The delivery-requirements list as claim C7 words it: the labels of the
fields among repoLink, liveLink, completionVideoLink that are absent, in that
fixed order. -/
def absentDeliveryLabels (p : Project) : List String :=
  (if p.repoLink.isNone then ["Repository link"] else []) ++
  (if p.liveLink.isNone then ["Live link"] else []) ++
  (if p.completionVideoLink.isNone then ["Completion video"] else [])

/-- A baseline record for concrete evaluations: required fields populated,
every optional field absent. -/
def baseProject : Project where
  id := "p1"
  name := "demo"
  clientName := none
  description := none
  type := .software
  createdAt := "2024-01-01T00:00:00Z"
  startDate := none
  deadline := "2024-06-30"
  completedAt := none
  deliveredAt := none
  totalAmount := 1000
  advanceReceived := 0
  totalReceived := 0
  partnerShareGiven := none
  partnerShareDate := none
  harshkShareGiven := none
  harshkShareDate := none
  nikkuShareGiven := none
  nikkuShareDate := none
  completionVideoLink := none
  completionNotes := none
  repoLink := none
  liveLink := none
  deliveryNotes := none
  techStack := none
  deliverables := none
  internalNotes := none

/-- Overwrite the six partner-share bookkeeping fields of a record. -/
def setShares (p : Project) (psg : Option Int) (psd : Option String)
    (hsg : Option Int) (hsd : Option String)
    (nsg : Option Int) (nsd : Option String) : Project :=
  { p with
    partnerShareGiven := psg
    partnerShareDate := psd
    harshkShareGiven := hsg
    harshkShareDate := hsd
    nikkuShareGiven := nsg
    nikkuShareDate := nsd }

/-- The joint output of the six engine functions on one record; `today` is the
clock input that only `isOverdue` consumes. -/
structure Derived where
  status : ProjectStatus
  due : Int
  access : Bool
  overdue : Bool
  missingCompletion : List String
  missingDelivery : List String
deriving DecidableEq, Repr

/-- One joint run of the six engine functions. -/
def deriveAll (p : Project) (today : Nat) : Derived where
  status := getProjectStatus p
  due := getDueAmount p
  access := canAccessLinks p
  overdue := isOverdue p today
  missingCompletion := getMissingCompletionRequirements p
  missingDelivery := getMissingDeliveryRequirements p

/-- C1: `getProjectStatus` returns, on every record, exactly the status of the
canonical first-match precedence rule of §4.1 (delivered terminal, then the
two completed branches on the clamped due amount, then in-progress on a
positive received total, else not started). -/
theorem c1_getProjectStatus_canonical (p : Project) :
    getProjectStatus p = canonicalStatus p := rfl

/-- C2: `canAccessLinks` is exactly the zero-due predicate, and it ignores
completedAt, deliveredAt and every link field. -/
theorem c2_canAccessLinks_zero_due (p : Project) :
    (canAccessLinks p = true ↔ getDueAmount p = 0) ∧
    ∀ (c d r l v : Option String),
      canAccessLinks { p with completedAt := c, deliveredAt := d, repoLink := r, liveLink := l, completionVideoLink := v } = canAccessLinks p := by
  constructor
  · simp [canAccessLinks]
  · intro c d r l v
    rfl

/-- C3: `getDueAmount` is the clamped difference `max 0 (totalAmount -
totalReceived)`, hence never negative, and exactly 0 whenever the received
total exceeds the contractual total. -/
theorem c3_getDueAmount_clamped (p : Project) :
    getDueAmount p = max 0 (p.totalAmount - p.totalReceived) ∧
    0 ≤ getDueAmount p ∧
    (p.totalAmount < p.totalReceived → getDueAmount p = 0) := by
  refine ⟨rfl, le_max_left _ _, fun h => ?_⟩
  simp only [getDueAmount]
  exact max_eq_left (by omega)

/-- C3 witness: an overpaid record has due amount exactly 0. -/
theorem c3_witness :
    getDueAmount { baseProject with totalAmount := 1000, totalReceived := 1500 } = 0 :=
  (c3_getDueAmount_clamped
    { baseProject with totalAmount := 1000, totalReceived := 1500 }).2.2 (by decide)

/-- C4 counterexample: a record whose completedAt is set (it holds the empty
string, so it is present) and whose deadline lies in the past is nevertheless
reported overdue, because `isOverdue` tests the field with JS truthiness while
the claim's "set" (presence) includes the empty string. -/
theorem c4_counterexample :
    ({ baseProject with deadline := "2020-01-01", completedAt := some "" } : Project).completedAt.isSome = true ∧
    isOverdue { baseProject with deadline := "2020-01-01", completedAt := some "" }
      (dateIndex 2024 6 1) = true := by decide

/-- C4 amended: `isOverdue` is false whenever the deadline is absent (empty),
or completedAt holds a nonempty string, or deliveredAt holds a nonempty
string — independent of how far in the past the deadline lies. -/
theorem c4_isOverdue_guards (p : Project) (today : Nat)
    (h : p.deadline = "" ∨ truthyStr p.completedAt = true ∨ truthyStr p.deliveredAt = true) :
    isOverdue p today = false := by
  unfold isOverdue
  rcases h with h | h | h <;> simp [h]

/-- C4 witness: a delivered record with a long-past deadline is not overdue. -/
theorem c4_witness :
    isOverdue { baseProject with deadline := "2020-01-01", deliveredAt := some "2024-01-05" }
      (dateIndex 2024 6 1) = false :=
  c4_isOverdue_guards _ _ (Or.inr (Or.inr (by decide)))

/-- C5: with completedAt and deliveredAt unset, a parsed deadline is compared
date-only against the current date — `isOverdue` is exactly the strict
date-order test — so a deadline equal to today is not overdue, and any
strictly earlier deadline, in particular yesterday (also across a month
boundary, since `dateIndex` preserves calendar order), is overdue. -/
theorem c5_isOverdue_boundary (p : Project) (today d : Nat)
    (hc : p.completedAt = none) (hd : p.deliveredAt = none)
    (hp : parseDate p.deadline = some d) :
    isOverdue p today = decide (d < today) ∧
    (d = today → isOverdue p today = false) ∧
    (d < today → isOverdue p today = true) := by
  have hne : (p.deadline == "") = false := by
    by_cases h : p.deadline = ""
    · have hemp : parseDate "" = none := rfl
      rw [h, hemp] at hp
      exact Option.noConfusion hp
    · simpa using h
  have heq : isOverdue p today = decide (d < today) := by
    simp [isOverdue, hne, hc, hd, truthyStr, hp]
  refine ⟨heq, fun h => ?_, fun h => ?_⟩
  · subst h
    simp [heq]
  · simp [heq, h]

/-- C5 witness: on the current date 2024-06-01 the deadline 2024-06-01 is not
overdue, while the deadline 2024-05-31 — yesterday, across a month
boundary — is overdue. -/
theorem c5_witness :
    isOverdue { baseProject with deadline := "2024-06-01" } (dateIndex 2024 6 1) = false ∧
    isOverdue { baseProject with deadline := "2024-05-31" } (dateIndex 2024 6 1) = true :=
  ⟨(c5_isOverdue_boundary { baseProject with deadline := "2024-06-01" }
      (dateIndex 2024 6 1) (dateIndex 2024 6 1) rfl rfl rfl).2.1 rfl,
   (c5_isOverdue_boundary { baseProject with deadline := "2024-05-31" }
      (dateIndex 2024 6 1) (dateIndex 2024 5 31) rfl rfl rfl).2.2 (by decide)⟩

/-- C6: a deadline in the date-only shape of the backend's date pattern (so
present: the shape forces ten characters) but unparsable as a date — a JS
Invalid Date such as "2023-02-29" — yields `isOverdue = false` (with
completedAt and deliveredAt unset), the same result as an absent deadline;
the function is total, so it never raises. Deadlines outside the date-only
shape, such as RFC3339 datetimes, are outside this embedding's domain. -/
theorem c6_isOverdue_unparsable (p : Project) (today : Nat)
    (hc : p.completedAt = none) (hd : p.deliveredAt = none)
    (hshape : dateOnlyShaped p.deadline = true)
    (hp : parseDate p.deadline = none) :
    isOverdue p today = false ∧
    isOverdue p today = isOverdue { p with deadline := "" } today := by
  have habs : isOverdue { p with deadline := "" } today = false := by
    simp [isOverdue]
  have hne : ¬ p.deadline = "" := by
    intro h
    rw [h] at hshape
    exact absurd hshape (by decide)
  have hmain : isOverdue p today = false := by
    unfold isOverdue
    simp [hne, hc, hd, truthyStr, hp]
  exact ⟨hmain, hmain.trans habs.symm⟩

/-- C6 witness: the deadline "2023-02-29" (the 29th of February of a non-leap
year, a JS Invalid Date that passes the backend's digit-shape check) is not
overdue and does not raise. -/
theorem c6_witness :
    isOverdue { baseProject with deadline := "2023-02-29" } (dateIndex 2024 6 1) = false :=
  (c6_isOverdue_unparsable { baseProject with deadline := "2023-02-29" }
    (dateIndex 2024 6 1) rfl rfl (by decide) (by decide)).1

/-- C7 counterexample: a record whose repoLink is present but empty (not
absent) is still listed, so the returned list is not the list of labels of the
absent fields. -/
theorem c7_counterexample :
    getMissingDeliveryRequirements { baseProject with repoLink := some "", liveLink := some "https://live.example", completionVideoLink := some "https://video.example" } = ["Repository link"] ∧
    absentDeliveryLabels { baseProject with repoLink := some "", liveLink := some "https://live.example", completionVideoLink := some "https://video.example" } = [] := by decide

/-- C7 amended: the list contains exactly the labels of the delivery links
that are absent or empty, in the fixed order repository link, live link,
completion video, and is empty when all three are present and nonempty. -/
theorem c7_missingDelivery_characterization (p : Project) :
    ("Repository link" ∈ getMissingDeliveryRequirements p ↔ truthyStr p.repoLink = false) ∧
    ("Live link" ∈ getMissingDeliveryRequirements p ↔ truthyStr p.liveLink = false) ∧
    ("Completion video" ∈ getMissingDeliveryRequirements p ↔
      truthyStr p.completionVideoLink = false) ∧
    List.Sublist (getMissingDeliveryRequirements p)
      ["Repository link", "Live link", "Completion video"] ∧
    (truthyStr p.repoLink = true → truthyStr p.liveLink = true →
      truthyStr p.completionVideoLink = true → getMissingDeliveryRequirements p = []) := by
  unfold getMissingDeliveryRequirements
  cases hr : truthyStr p.repoLink <;> cases hl : truthyStr p.liveLink <;>
    cases hv : truthyStr p.completionVideoLink <;> simp only [hr, hl, hv] <;> decide

/-- C7 witness: with all three links present and nonempty, nothing is missing. -/
theorem c7_witness :
    getMissingDeliveryRequirements { baseProject with repoLink := some "https://repo.example", liveLink := some "https://live.example", completionVideoLink := some "https://video.example" } = [] :=
  (c7_missingDelivery_characterization { baseProject with repoLink := some "https://repo.example", liveLink := some "https://live.example", completionVideoLink := some "https://video.example" }).2.2.2.2
    (by decide) (by decide) (by decide)

/-- C8: records differing only in the six partner-share bookkeeping fields get
identical results from all six derivation functions. -/
theorem c8_share_noninterference (p : Project) (today : Nat)
    (psg hsg nsg : Option Int) (psd hsd nsd : Option String) :
    getProjectStatus (setShares p psg psd hsg hsd nsg nsd) = getProjectStatus p ∧
    getDueAmount (setShares p psg psd hsg hsd nsg nsd) = getDueAmount p ∧
    canAccessLinks (setShares p psg psd hsg hsd nsg nsd) = canAccessLinks p ∧
    isOverdue (setShares p psg psd hsg hsd nsg nsd) today = isOverdue p today ∧
    getMissingCompletionRequirements (setShares p psg psd hsg hsd nsg nsd) =
      getMissingCompletionRequirements p ∧
    getMissingDeliveryRequirements (setShares p psg psd hsg hsd nsg nsd) =
      getMissingDeliveryRequirements p :=
  ⟨rfl, rfl, rfl, rfl, rfl, rfl⟩

/-- C9 counterexample: `isOverdue` consults the clock: the same unchanged
record is not overdue when the current date is 2023-06-01 and overdue when it
is 2024-06-01, refuting "no dependence on ambient state such as the system
clock" for the derivation functions. -/
theorem c9_counterexample :
    isOverdue { baseProject with deadline := "2024-01-01" } (dateIndex 2023 6 1) = false ∧
    isOverdue { baseProject with deadline := "2024-01-01" } (dateIndex 2024 6 1) = true := by
  decide

/-- C9 amended: every derivation function is deterministic given the record
plus, for `isOverdue` alone, the current date; the other five functions are
independent of the clock. -/
theorem c9_clock_noninterference (p : Project) (t1 t2 : Nat) :
    (deriveAll p t1).status = (deriveAll p t2).status ∧
    (deriveAll p t1).due = (deriveAll p t2).due ∧
    (deriveAll p t1).access = (deriveAll p t2).access ∧
    (deriveAll p t1).missingCompletion = (deriveAll p t2).missingCompletion ∧
    (deriveAll p t1).missingDelivery = (deriveAll p t2).missingDelivery :=
  ⟨rfl, rfl, rfl, rfl, rfl⟩

/-- C10: an empty techStack or deliverables list counts as provided (only a
wholly absent field is reported), while clientName is reported when absent or
empty. -/
theorem c10_completion_presence (p : Project) :
    ("Tech stack" ∈ getMissingCompletionRequirements p ↔ p.techStack = none) ∧
    ("Deliverables" ∈ getMissingCompletionRequirements p ↔ p.deliverables = none) ∧
    ("Client name" ∈ getMissingCompletionRequirements p ↔
      (p.clientName = none ∨ p.clientName = some "")) := by
  unfold getMissingCompletionRequirements
  rcases hts : p.techStack with _ | ts <;> rcases hds : p.deliverables with _ | ds <;>
    rcases hcn : p.clientName with _ | s <;>
    simp [truthyStr, truthyArr]

end Handoff
